import Mathlib

/-!
Verification development for the Slack summary bot
(`functions/src` of the repository).

Each section shallowly embeds one piece of the TypeScript source:

* `startOfDayMs` — the window-start computation of
  `SlackService.getTodayMessages` (`services/slack.service.ts`);
* `Json`, `generateSummary` — `OpenAIService.generateSummary`
  (`services/openai.service.ts`);
* `resolveScopeCore` / `resolveScope` / `runShortcut` — the
  `summarize_thread` message-shortcut handler (`routes/actions.ts`);
* `formatErrorMessage` — `utils/error-handler.ts`;
* `formatSummaryResponse` — `SlackService.formatSummaryResponse`;
* `handleRequest` — the Express middleware chain of `index.ts`;
* `formatChannelInput`, `resolveTargetChannel`, `runCommand` — the
  `/summary-today` slash-command handler (`routes/commands.ts` and
  `utils/message-utils.ts`).

External I/O (Slack Web API calls, the OpenAI completion call) is passed
in as explicit `Except`-valued inputs; machine time is `Int` milliseconds
since the epoch.
-/

set_option autoImplicit false

namespace SlackSummary

/-! ## Window computation (services/slack.service.ts, getTodayMessages)

The source computes, from `now` (a JS `Date`, milliseconds since the epoch)
and a timezone offset in seconds:

```
const userLocalTime = new Date(now.getTime() + (tzOffset * 1000));
userLocalTime.setHours(0, 0, 0, 0);
const startOfDay = new Date(userLocalTime.getTime() - (tzOffset * 1000));
```

`Date#setHours(0,0,0,0)` truncates to midnight of the runtime's local
calendar day; the Cloud Functions runtime clock is UTC, so the truncation
floors the millisecond value to a multiple of 86,400,000 (this holds for
dates before the epoch as well, hence integer division on `Int`, which
floors for a positive divisor).
-/

/-- One day in milliseconds. -/
def dayMs : Int := 86400000

/-- The window start of `getTodayMessages`: `now` shifted by the offset,
truncated to the day boundary, shifted back by the offset.
`nowMs` is in milliseconds, `tzOffsetSec` in seconds. -/
def startOfDayMs (nowMs tzOffsetSec : Int) : Int :=
  (nowMs + tzOffsetSec * 1000) / dayMs * dayMs - tzOffsetSec * 1000

/-! ## JSON values and the summarizer (services/openai.service.ts)

`generateSummary` early-returns a canned result on empty input; otherwise
it calls the completion API and inspects `response.choices[0]?.message?.content`:
a missing/empty content throws, an unparseable body is converted to a fixed
fallback by the inner `try`/`catch`, and a parsed body is read with
JavaScript truthiness defaults (`||`) and an `Array.isArray` check.
The upstream call is embedded as an explicit `CompletionOutcome` input, with
`JSON.parse`'s two possible outcomes (`unparseable` / `parsed`) given as
constructors rather than re-implementing a JSON parser.
-/

/-- Runtime JSON values (the possible results of `JSON.parse`). `obj`
represents a runtime object, so its keys are unique — `JSON.parse` has
already collapsed duplicate keys in the source text. -/
inductive Json where
  | null : Json
  | bool (b : Bool) : Json
  | num (n : Int) : Json
  | str (s : String) : Json
  | arr (elems : List Json) : Json
  | obj (fields : List (String × Json)) : Json

/-- JavaScript truthiness of a JSON value
(`null`, `false`, `0` and `""` are falsy; arrays and objects are truthy). -/
def Json.truthy : Json → Bool
  | .null => false
  | .bool b => b
  | .num n => n != 0
  | .str s => s != ""
  | .arr _ => true
  | .obj _ => true

/-- JavaScript property access `v[key]` on a parsed JSON value:
defined (`some`) only on objects that carry the key. -/
def Json.lookup : Json → String → Option Json
  | .obj fields, key => fields.lookup key
  | _, _ => none

/-- `v || dflt` on an optionally-present JSON value: the value itself when
present and truthy, the default otherwise. -/
def jsonOr (v : Option Json) (dflt : Json) : Json :=
  match v with
  | some j => if j.truthy then j else dflt
  | none => dflt

/-- The object literal built by `generateSummary`
(`{ topic, summary, actionItems }`). The TypeScript declares the fields as
`string`/`string[]`, but at runtime they are whatever JSON values the
`||` / `Array.isArray` expressions produce, so they are embedded as `Json`. -/
structure GeneratedSummary where
  topic : Json
  summary : Json
  actionItems : Json

/-- Field extraction from a successfully parsed response value `p`:
`p.topic || "Discussion"`, `p.summary || "No summary generated."`,
`Array.isArray(p.actionItems) ? p.actionItems : []`. -/
def summaryFromJson (p : Json) : GeneratedSummary where
  topic := jsonOr (p.lookup "topic") (Json.str "Discussion")
  summary := jsonOr (p.lookup "summary") (Json.str "No summary generated.")
  actionItems :=
    match p.lookup "actionItems" with
    | some (Json.arr xs) => Json.arr xs
    | _ => Json.arr []

/-- The fixed result the inner `catch` returns when the response body cannot
be used as JSON. -/
def parseFailureSummary : GeneratedSummary where
  topic := Json.str "Discussion"
  summary := Json.str "Failed to parse the AI-generated summary."
  actionItems := Json.arr []

/-- What the completion call produced, as observed by `generateSummary`:
the call threw (`apiError`); it returned but
`response.choices[0]?.message?.content` was missing, `null` or `""`
(`noContent`); it returned a content string that `JSON.parse` rejects
(`unparseable`); or a content string parsing to `parsed value`. -/
inductive CompletionOutcome where
  | apiError (message : String) : CompletionOutcome
  | noContent : CompletionOutcome
  | unparseable (body : String) : CompletionOutcome
  | parsed (value : Json) : CompletionOutcome

/-- `OpenAIService.generateSummary`. The first component is the returned
result or the propagated error message; the second records whether the
completion API was invoked. `Json.null` bodies hit the `parsedResponse.topic`
property access, whose `TypeError` the inner `catch` also converts to
`parseFailureSummary`. -/
def generateSummary (messages : List String) (outcome : CompletionOutcome) :
    Except String GeneratedSummary × Bool :=
  if messages.isEmpty then
    (Except.ok ⟨Json.str "No topic", Json.str "No messages to summarize.", Json.arr []⟩, false)
  else
    match outcome with
    | .apiError message => (Except.error message, true)
    | .noContent => (Except.error "No content returned from OpenAI", true)
    | .unparseable _ => (Except.ok parseFailureSummary, true)
    | .parsed value =>
      match value with
      | .null => (Except.ok parseFailureSummary, true)
      | v => (Except.ok (summaryFromJson v), true)

/-! ## String containment helpers

`subAfter` finds the first occurrence of a pattern in a character list and
returns the remainder after it; `strContains` is JavaScript's
`String.prototype.includes`, used below to embed the substring checks of the
error classifiers; `chainContains` checks that several patterns occur in
order. -/

/-- The remainder of `l` after the first occurrence of `pat`, if any. -/
def subAfter (pat : List Char) : List Char → Option (List Char)
  | [] => if pat.isEmpty then some [] else none
  | c :: rest =>
    if pat.isPrefixOf (c :: rest) then some ((c :: rest).drop pat.length)
    else subAfter pat rest

/-- `s.includes(pat)` of JavaScript. -/
def strContains (s pat : String) : Bool :=
  (subAfter pat.toList s.toList).isSome

/-- All of `pats` occur in `l`, in order, without overlapping. -/
def chainContains : List Char → List String → Bool
  | _, [] => true
  | l, p :: ps =>
    match subAfter p.toList l with
    | some rest => chainContains rest ps
    | none => false

/-- Concatenation of a list of strings. -/
def concatStrings (l : List String) : String :=
  l.foldr (fun a b => a ++ b) ""

/-- JavaScript `String.prototype.trim`: strip whitespace from both ends. -/
def jsTrim (s : String) : String :=
  String.mk (((s.toList.dropWhile Char.isWhitespace).reverse.dropWhile
    Char.isWhitespace).reverse)

/-- JavaScript `String.prototype.startsWith`. -/
def strStartsWith (s pre : String) : Bool :=
  pre.toList.isPrefixOf s.toList

/-- JavaScript `String.prototype.substring(n)`: drop the first `n`
characters. -/
def strDrop (s : String) (n : Nat) : String :=
  String.mk (s.toList.drop n)

/-! ## Response formatter (services/slack.service.ts, formatSummaryResponse) -/

/-- `SlackService.formatSummaryResponse`: the fixed template, with the
1-indexed action-item list appended by the `forEach` only when the list is
non-empty. -/
def formatSummaryResponse (topic summary : String) (actionItems : List String) : String :=
  let response := "*Topic:* " ++ topic ++ "\n\n*Summary:*\n" ++ summary ++ "\n\n"
  if actionItems.length > 0 then
    actionItems.enum.foldl
      (fun acc p => acc ++ toString (p.1 + 1) ++ ". " ++ p.2 ++ "\n")
      (response ++ "*Action Items:*\n")
  else response

/-! ## Error classification (utils/error-handler.ts and the inline copy in
routes/actions.ts)

Both classifiers inspect `error.message` for known substrings, in source
order; the input is `some message` for an `Error` instance and `none`
otherwise (in which case the default message is returned unchanged). -/

/-- `formatErrorMessage` of `utils/error-handler.ts`, used by the
slash-command handler through `logAndFormatError`. -/
def formatErrorMessage (errMessage : Option String) (defaultMessage : String) : String :=
  match errMessage with
  | none => defaultMessage
  | some m =>
    if strContains m "quota" || strContains m "rate limit" then
      "OpenAI API quota exceeded or rate limited. Please try again later or check your API key settings."
    else if strContains m "not_in_channel" then
      "The bot is not in this channel. Please invite the bot to the channel first using `/invite @YourBotName`."
    else if strContains m "not_authed" || strContains m "invalid_auth" then
      "Authentication failed. Please check the bot token or reinstall the app."
    else if strContains m "missing_scope" then
      "The bot is missing required permissions. Please reinstall the app with all required scopes."
    else "Error: " ++ m

/-- The inline error classifier of the `summarize_thread` shortcut handler
(`routes/actions.ts`): it only distinguishes the quota/rate-limit and
`not_in_channel` substrings. -/
def shortcutErrorMessage (m : String) : String :=
  if strContains m "quota" || strContains m "rate limit" then
    "OpenAI API quota exceeded or rate limited. Please try again later or check your API key settings."
  else if strContains m "not_in_channel" then
    "The bot is not in this channel. Please invite the bot to the channel first using `/invite @YourBotName`."
  else "Error: " ++ m

/-! ## Scope resolution (routes/actions.ts, summarize_thread shortcut)

The payload's message carries `ts`, optional `text` and optional
`thread_ts`; the Slack fetches are embedded as `Except`-valued inputs
(`fetchThread root` is `conversations.replies` rooted at `root`; `history`
is the single-message `conversations.history` fallback fetch). JavaScript
truthiness makes an empty-string `text` or `thread_ts` behave like an
absent one. -/

/-- A Slack message as consumed by the handlers: its timestamp id and its
optional text. -/
structure SlackMsg where
  ts : String
  text : Option String
  deriving DecidableEq

/-- The message field of a `message_action` shortcut payload. -/
structure ShortcutMessage where
  ts : String
  text : Option String
  thread_ts : Option String

/-- The resolved summarization scope of the spec's data model. -/
inductive Scope where
  | thread (rootId : String) : Scope
  | singleMessage (id : String) : Scope
  deriving DecidableEq

/-- Outcome of a successful scope resolution: the scope, the text batch to
summarize, the summary title, and the id the summary will be posted as a
reply to. -/
structure ResolvedScope where
  scope : Scope
  texts : List String
  title : String
  replyThreadTs : String
  deriving DecidableEq

/-- `messages.map(msg => msg.text).filter(Boolean)`: the texts of a fetched
message list, dropping missing and empty ones. -/
def textsOf (messages : List SlackMsg) : List String :=
  (messages.map (fun m => m.text)).filterMap
    (fun t =>
      match t with
      | some s => if s = "" then none else some s
      | none => none)

/-- The single-message `conversations.history` fallback of the standalone
branch. The fetch and the checks on its result sit inside their own
`try`/`catch` whose handler rethrows every failure as
'Failed to retrieve message content', so all three failure paths produce
that message. -/
def historyFallback (msgTs : String) (history : Except String (List SlackMsg)) :
    Except String ResolvedScope :=
  match history with
  | .error _ => .error "Failed to retrieve message content"
  | .ok msgs =>
    match msgs with
    | [] => .error "Failed to retrieve message content"
    | m :: _ =>
      match m.text with
      | some t =>
        if t = "" then .error "Failed to retrieve message content"
        else .ok ⟨Scope.singleMessage msgTs, [t], "*Message Summary*\n\n", msgTs⟩
      | none => .error "Failed to retrieve message content"

/-- The `else` branch of the shortcut handler, taken when the payload has no
(truthy) `thread_ts`: probe the thread rooted at the message itself; more
than one message means the target is a thread parent; otherwise summarize
the inline text, falling back to the history fetch when the payload carries
none. -/
def noThreadTsBranch (msg : ShortcutMessage)
    (fetchThread : String → Except String (List SlackMsg))
    (history : Except String (List SlackMsg)) : Except String ResolvedScope :=
  match fetchThread msg.ts with
  | .error e => .error e
  | .ok threadMessages =>
    if threadMessages.length > 1 then
      .ok ⟨Scope.thread msg.ts, textsOf threadMessages, "*Thread Summary*\n\n", msg.ts⟩
    else
      match msg.text with
      | some t =>
        if t = "" then historyFallback msg.ts history
        else .ok ⟨Scope.singleMessage msg.ts, [t], "*Message Summary*\n\n", msg.ts⟩
      | none => historyFallback msg.ts history

/-- The scope-resolution conditional of the shortcut handler: the branch on
`messageShortcut.message.thread_ts`, before the handler's empty-batch
check. -/
def resolveScopeCore (msg : ShortcutMessage)
    (fetchThread : String → Except String (List SlackMsg))
    (history : Except String (List SlackMsg)) : Except String ResolvedScope :=
  match msg.thread_ts with
  | some root =>
    if root = "" then noThreadTsBranch msg fetchThread history
    else
      match fetchThread root with
      | .error e => .error e
      | .ok threadMessages =>
        if threadMessages.length > 0 then
          .ok ⟨Scope.thread root, textsOf threadMessages, "*Thread Summary*\n\n", root⟩
        else .error "Could not fetch thread messages"
  | none => noThreadTsBranch msg fetchThread history

/-- Scope resolution including the handler's subsequent
`messagesToSummarize.length === 0` check, which turns an empty batch into
the FAILED notice instead of proceeding. -/
def resolveScope (msg : ShortcutMessage)
    (fetchThread : String → Except String (List SlackMsg))
    (history : Except String (List SlackMsg)) : Except String ResolvedScope :=
  match resolveScopeCore msg fetchThread history with
  | .ok r =>
    if r.texts.isEmpty then .error "No message content found to summarize."
    else .ok r
  | .error e => .error e

/-! ## Dispatcher effect traces (routes/actions.ts and routes/commands.ts)

`runShortcut` and `runCommand` replay a whole background run of the two
trigger handlers and record every message actually delivered to Slack, in
order. `ephemeral`/`respondE` are requester-only notices (`postEphemeral`
and the `response_type: ephemeral` respond); `post` is the public
`chat.postMessage`. The summarizer and the posting call are injected, as
in the source; notification sends themselves are modeled as succeeding, and
a failing `chat.postMessage` delivers nothing to the channel. -/

/-- The summary result as the dispatchers consume it
(`{ topic, summary, actionItems }` of the service's declared interface). -/
structure SummaryStrings where
  topic : String
  summary : String
  actionItems : List String
  deriving DecidableEq

/-- A message delivered to Slack during one trigger run. -/
inductive Effect where
  | ephemeral (channel user text : String) : Effect
  | respondE (text : String) : Effect
  | post (channel text : String) (threadTs : Option String) : Effect
  deriving DecidableEq

/-- Requester-only effects: everything except the public `post`. -/
def Effect.isPrivate : Effect → Bool
  | .post _ _ _ => false
  | _ => true

/-- One background run of the `summarize_thread` shortcut handler, after the
immediate `ack()`. -/
def runShortcut (channelId userId : String) (msg : ShortcutMessage)
    (fetchThread : String → Except String (List SlackMsg))
    (history : Except String (List SlackMsg))
    (summarize : List String → Except String SummaryStrings)
    (postOutcome : Except String String) : List Effect :=
  let loading := Effect.ephemeral channelId userId
    ":hourglass: Fetching messages and generating summary..."
  match resolveScopeCore msg fetchThread history with
  | .error e => [loading, Effect.ephemeral channelId userId (shortcutErrorMessage e)]
  | .ok r =>
    if r.texts.isEmpty then
      [loading, Effect.ephemeral channelId userId "No message content found to summarize."]
    else
      match summarize r.texts with
      | .error e => [loading, Effect.ephemeral channelId userId (shortcutErrorMessage e)]
      | .ok s =>
        match postOutcome with
        | .error e => [loading, Effect.ephemeral channelId userId (shortcutErrorMessage e)]
        | .ok _ =>
          [loading,
            Effect.post channelId
              (r.title ++ formatSummaryResponse s.topic s.summary s.actionItems)
              (some r.replyThreadTs),
            Effect.ephemeral channelId userId
              ":white_check_mark: Summary generated and posted as a reply."]

/-! ## Slash-command channel resolution (routes/commands.ts and
utils/message-utils.ts) -/

/-- `formatChannelInput` of `utils/message-utils.ts`: trim whitespace and
strip a single leading `#`. -/
def formatChannelInput (channelInput : String) : String :=
  let formattedChannel := jsTrim channelInput
  if strStartsWith formattedChannel "#" then strDrop formattedChannel 1
  else formattedChannel

/-- `formatChannelName` of `utils/message-utils.ts`. -/
def formatChannelName (channelName : String) : String :=
  if strStartsWith channelName "#" then channelName else "#" ++ channelName

/-- `getChannelSummaryHeader` of `utils/message-utils.ts`. -/
def getChannelSummaryHeader (channelName : String) : String :=
  "*Summary of today\u0027s messages in " ++ formatChannelName channelName ++ "*\n\n"

/-- A channel as returned by `conversations.list` (both fields optional in
the Slack client's types). -/
structure NamedChannel where
  id : Option String
  name : Option String
  deriving DecidableEq

/-- How the `/summary-today` handler decided the target channel. -/
inductive ChannelResolution where
  | resolved (id : String) : ChannelResolution
  | notFound (name : String) : ChannelResolution
  | failed (errMessage : String) : ChannelResolution
  deriving DecidableEq

/-- The target-channel logic of `/summary-today`: empty argument means the
invoking channel; an argument starting with `C` is used directly as an id;
anything else is resolved through `listChannels` (embedded as the
`channelsRes` input, `.error` when the call throws) by exact name match,
first match winning. The second component records whether `listChannels`
was invoked. -/
def resolveTargetChannel (text invokingChannel : String)
    (channelsRes : Except String (List NamedChannel)) : ChannelResolution × Bool :=
  let targetChannel := formatChannelInput text
  if targetChannel = "" then (ChannelResolution.resolved invokingChannel, false)
  else if strStartsWith targetChannel "C" then (ChannelResolution.resolved targetChannel, false)
  else
    match channelsRes with
    | .error e => (ChannelResolution.failed e, true)
    | .ok channels =>
      match channels.find? (fun c => c.name = some targetChannel) with
      | none => (ChannelResolution.notFound targetChannel, true)
      | some c => (ChannelResolution.resolved (c.id.getD ""), true)

/-- The `/summary-today` run from the point where the target channel id is
known: update the loading notice, fetch today's messages, look up the
channel name, summarize, post, and confirm — any thrown step diverting to
the `catch`, which sends one ephemeral notice built by
`formatErrorMessage`. -/
def runCommandCore (target : String)
    (todayRes : Except String (List SlackMsg))
    (infoRes : Except String (Option String))
    (summarize : List String → Except String SummaryStrings)
    (postOutcome : Except String String) : List Effect :=
  let fetching := Effect.respondE
    ":hourglass: Fetching today\u0027s messages and generating summary..."
  let errNotice := fun (e : String) =>
    Effect.respondE (formatErrorMessage (some e) "An error occurred while generating the summary.")
  match todayRes with
  | .error e => [fetching, errNotice e]
  | .ok messages =>
    if messages.isEmpty then
      [fetching, Effect.respondE "No messages found in the channel for today (based on your timezone)."]
    else
      match infoRes with
      | .error e => [fetching, errNotice e]
      | .ok nameOpt =>
        let channelName :=
          match nameOpt with
          | some n => if n = "" then target else n
          | none => target
        match summarize (textsOf messages) with
        | .error e => [fetching, errNotice e]
        | .ok s =>
          match postOutcome with
          | .error e => [fetching, errNotice e]
          | .ok _ =>
            [fetching,
              Effect.post target
                (getChannelSummaryHeader channelName
                  ++ formatSummaryResponse s.topic s.summary s.actionItems)
                none,
              Effect.respondE
                (":white_check_mark: Summary generated and posted to #" ++ channelName ++ ".")]

/-- One background run of the `/summary-today` handler, after the immediate
`ack()`. -/
def runCommand (text invokingChannel : String)
    (channelsRes : Except String (List NamedChannel))
    (todayRes : Except String (List SlackMsg))
    (infoRes : Except String (Option String))
    (summarize : List String → Except String SummaryStrings)
    (postOutcome : Except String String) : List Effect :=
  let loading := Effect.respondE ":hourglass: Processing your request..."
  match (resolveTargetChannel text invokingChannel channelsRes).1 with
  | ChannelResolution.failed e =>
    [loading,
      Effect.respondE (formatErrorMessage (some e) "An error occurred while generating the summary.")]
  | ChannelResolution.notFound name =>
    [loading,
      Effect.respondE ("Channel #" ++ name ++ " not found. Please provide a valid channel name or ID.")]
  | ChannelResolution.resolved target =>
    loading :: runCommandCore target todayRes infoRes summarize postOutcome

/-! ## Inbound HTTP pipeline (index.ts)

`handleRequest` follows the Express middleware chain of the exported
function: the first middleware short-circuits `url_verification` bodies by
echoing the challenge, the root `POST` route redirects other bodies to the
Bolt endpoint, the root `GET` route answers a fixed banner, `/test-openai`
runs the summarizer test (abstracted as its own response constructor), and
everything else reaches the Bolt receiver's router, whose own
`url_verification` middleware is by then unreachable. -/

/-- The fields of an inbound request body the pipeline inspects. -/
structure InboundBody where
  type : Option String
  challenge : Option String

/-- The response the pipeline produces. -/
inductive HttpResponse where
  | text (body : String) : HttpResponse
  | redirect (status : Nat) (location : String) : HttpResponse
  | openaiTest : HttpResponse
  | boltDispatch : HttpResponse

/-- A handled request: the response sent, and whether the request reached
the Bolt receiver (signature verification and trigger processing). -/
structure HandledRequest where
  response : HttpResponse
  boltDispatched : Bool

/-- The routes mounted after the fast-track middleware. -/
def routeRequest (method path : String) (body : Option InboundBody) : HandledRequest :=
  if method = "POST" && path = "/" then
    match body with
    | some b =>
      if b.type = some "url_verification" then ⟨HttpResponse.text (b.challenge.getD ""), false⟩
      else ⟨HttpResponse.redirect 307 "/slack/events", false⟩
    | none => ⟨HttpResponse.redirect 307 "/slack/events", false⟩
  else if method = "GET" && path = "/" then
    ⟨HttpResponse.text "Slack Summary Bot is running!", false⟩
  else if method = "GET" && path = "/test-openai" then
    ⟨HttpResponse.openaiTest, false⟩
  else
    match body with
    | some b =>
      if b.type = some "url_verification" then ⟨HttpResponse.text (b.challenge.getD ""), false⟩
      else ⟨HttpResponse.boltDispatch, true⟩
    | none => ⟨HttpResponse.boltDispatch, true⟩

/-- The whole `mainApp` pipeline: the fast-track middleware first, then the
routes. -/
def handleRequest (method path : String) (body : Option InboundBody) : HandledRequest :=
  match body with
  | some b =>
    if b.type = some "url_verification" then ⟨HttpResponse.text (b.challenge.getD ""), false⟩
    else routeRequest method path (some b)
  | none => routeRequest method path none

end SlackSummary

namespace SlackSummary

/-- C1: for every instant `now` (ms) and every timezone offset (s), the
window start of `getTodayMessages`, shifted forward again by the offset,
lands on a local-clock day boundary (zero hours, minutes, seconds and
milliseconds, i.e. it is a multiple of 86,400,000 ms), and the window start
is at most `now`. -/
theorem startOfDay_local_midnight_le_now (nowMs tzOffsetSec : Int) :
    (startOfDayMs nowMs tzOffsetSec + tzOffsetSec * 1000) % dayMs = 0
      ∧ startOfDayMs nowMs tzOffsetSec ≤ nowMs := by
  unfold startOfDayMs dayMs
  omega

/-- C3: on the empty message list, `generateSummary` returns exactly the
fixed fallback `{topic: "No topic", summary: "No messages to summarize.",
actionItems: []}` and never invokes the completion API, whatever that call
would have produced. -/
theorem generateSummary_empty_input (outcome : CompletionOutcome) :
    generateSummary [] outcome =
      (Except.ok ⟨Json.str "No topic", Json.str "No messages to summarize.", Json.arr []⟩,
        false) := by
  rfl

/-- C4: `generateSummary` propagates an error exactly when the completion
call itself fails — the call threw, or the model returned no content — and
an unparseable response body does not raise: it yields the fixed failure
result with summary "Failed to parse the AI-generated summary." and no
action items. -/
theorem generateSummary_error_iff (messages : List String) (outcome : CompletionOutcome) :
    ((generateSummary messages outcome).1.isOk = false ↔
      messages ≠ [] ∧ ((∃ m, outcome = CompletionOutcome.apiError m)
        ∨ outcome = CompletionOutcome.noContent))
    ∧ (∀ body, messages ≠ [] →
        generateSummary messages (CompletionOutcome.unparseable body) =
          (Except.ok ⟨Json.str "Discussion",
              Json.str "Failed to parse the AI-generated summary.", Json.arr []⟩,
            true)) := by
  constructor
  · cases messages with
    | nil => simp [generateSummary, Except.isOk, Except.toBool]
    | cons m ms =>
      cases outcome with
      | apiError message => simp [generateSummary, Except.isOk, Except.toBool]
      | noContent => simp [generateSummary, Except.isOk, Except.toBool]
      | unparseable body => simp [generateSummary, Except.isOk, Except.toBool]
      | parsed value => cases value <;> simp [generateSummary, Except.isOk, Except.toBool]
  · intro body hne
    cases messages with
    | nil => exact absurd rfl hne
    | cons m ms => rfl

/-- Witness for C4 at concrete inputs: a nonempty message list with an
unparseable body yields the fixed failure result without raising. -/
theorem generateSummary_error_iff_witness :
    (["hi"] : List String) ≠ [] ∧
      generateSummary ["hi"] (CompletionOutcome.unparseable "not json") =
        (Except.ok ⟨Json.str "Discussion",
            Json.str "Failed to parse the AI-generated summary.", Json.arr []⟩,
          true) :=
  ⟨by decide, (generateSummary_error_iff ["hi"]
      (CompletionOutcome.unparseable "not json")).2 "not json" (by decide)⟩

/-- C5 counterexample: the claim says a present `topic` field is returned
as parsed, but for the body `{"topic": "", "summary": "All good.",
"actionItems": []}` the code's JavaScript `||` default fires on the falsy
(empty-string) value and returns "Discussion" instead of the parsed "". -/
theorem generateSummary_falsy_topic_counterexample :
    (generateSummary ["hello"]
        (CompletionOutcome.parsed (Json.obj
          [("topic", Json.str ""), ("summary", Json.str "All good."),
            ("actionItems", Json.arr [])]))).1 =
      Except.ok ⟨Json.str "Discussion", Json.str "All good.", Json.arr []⟩
    ∧ Json.str "Discussion" ≠ Json.str "" := by
  refine ⟨rfl, fun h => ?_⟩
  injection h with h'
  exact absurd h' (by decide)

/-- C5 as amended: for every response body parsing to a JSON object, a
`summary` field that is absent **or falsy** yields "No summary generated.",
a `topic` field that is absent **or falsy** yields "Discussion", an
`actionItems` field that is not a sequence yields the empty sequence, and
otherwise each field is returned as parsed. -/
theorem generateSummary_field_defaults (messages : List String)
    (fields : List (String × Json)) (h : messages ≠ []) :
    ∃ g, (generateSummary messages (CompletionOutcome.parsed (Json.obj fields))).1 = Except.ok g
      ∧ ((Json.obj fields).lookup "summary" = none →
          g.summary = Json.str "No summary generated.")
      ∧ (∀ j, (Json.obj fields).lookup "summary" = some j →
          (j.truthy = true → g.summary = j)
            ∧ (j.truthy = false → g.summary = Json.str "No summary generated."))
      ∧ ((Json.obj fields).lookup "topic" = none → g.topic = Json.str "Discussion")
      ∧ (∀ j, (Json.obj fields).lookup "topic" = some j →
          (j.truthy = true → g.topic = j)
            ∧ (j.truthy = false → g.topic = Json.str "Discussion"))
      ∧ (∀ xs, (Json.obj fields).lookup "actionItems" = some (Json.arr xs) →
          g.actionItems = Json.arr xs)
      ∧ ((∀ xs, (Json.obj fields).lookup "actionItems" ≠ some (Json.arr xs)) →
          g.actionItems = Json.arr []) := by
  cases messages with
  | nil => exact absurd rfl h
  | cons m ms =>
    refine ⟨summaryFromJson (Json.obj fields), rfl, ?_, ?_, ?_, ?_, ?_, ?_⟩
    · intro hl; simp [summaryFromJson, jsonOr, hl]
    · intro j hl
      constructor <;> intro ht <;> simp [summaryFromJson, jsonOr, hl, ht]
    · intro hl; simp [summaryFromJson, jsonOr, hl]
    · intro j hl
      constructor <;> intro ht <;> simp [summaryFromJson, jsonOr, hl, ht]
    · intro xs hl; simp [summaryFromJson, hl]
    · intro hno
      cases hl : (Json.obj fields).lookup "actionItems" with
      | none => simp [summaryFromJson, hl]
      | some j =>
        cases j with
        | arr xs => exact absurd hl (hno xs)
        | null => simp [summaryFromJson, hl]
        | bool b => simp [summaryFromJson, hl]
        | num n => simp [summaryFromJson, hl]
        | str s => simp [summaryFromJson, hl]
        | obj fs => simp [summaryFromJson, hl]

/-- The empty-batch guard: a successful `resolveScope` is a successful
`resolveScopeCore` whose text batch is non-empty. -/
theorem resolveScope_ok {msg : ShortcutMessage}
    {fetchThread : String → Except String (List SlackMsg)}
    {history : Except String (List SlackMsg)} {r : ResolvedScope}
    (h : resolveScope msg fetchThread history = Except.ok r) :
    resolveScopeCore msg fetchThread history = Except.ok r ∧ r.texts ≠ [] := by
  unfold resolveScope at h
  cases hc : resolveScopeCore msg fetchThread history with
  | error e => rw [hc] at h; exact absurd h (by simp)
  | ok r0 =>
    rw [hc] at h
    dsimp only at h
    by_cases he : r0.texts.isEmpty
    · rw [if_pos he] at h; exact absurd h (by simp)
    · rw [if_neg he] at h
      injection h with h'
      subst h'
      exact ⟨rfl, by simpa [List.isEmpty_iff] using he⟩

/-- Witness for the amended C5 at a concrete object body. -/
theorem generateSummary_field_defaults_witness :
    ∃ g, (generateSummary ["m"]
        (CompletionOutcome.parsed (Json.obj [("topic", Json.str "T")]))).1 = Except.ok g
      ∧ ((Json.obj [("topic", Json.str "T")]).lookup "summary" = none →
          g.summary = Json.str "No summary generated.")
      ∧ (∀ j, (Json.obj [("topic", Json.str "T")]).lookup "summary" = some j →
          (j.truthy = true → g.summary = j)
            ∧ (j.truthy = false → g.summary = Json.str "No summary generated."))
      ∧ ((Json.obj [("topic", Json.str "T")]).lookup "topic" = none →
          g.topic = Json.str "Discussion")
      ∧ (∀ j, (Json.obj [("topic", Json.str "T")]).lookup "topic" = some j →
          (j.truthy = true → g.topic = j)
            ∧ (j.truthy = false → g.topic = Json.str "Discussion"))
      ∧ (∀ xs, (Json.obj [("topic", Json.str "T")]).lookup "actionItems" = some (Json.arr xs) →
          g.actionItems = Json.arr xs)
      ∧ ((∀ xs, (Json.obj [("topic", Json.str "T")]).lookup "actionItems" ≠ some (Json.arr xs)) →
          g.actionItems = Json.arr []) :=
  generateSummary_field_defaults ["m"] [("topic", Json.str "T")] (by decide)

/-- C2: the scope-resolution state machine of the `summarize_thread`
handler. Without a `thread_ts`, a thread probe returning more than one
message resolves to the thread rooted at the target message with the target
as reply target; with at most one message and (truthy) inline text `t`, it
resolves to the single target message carrying exactly `[t]`; with a
`thread_ts`, every successful resolution is the thread rooted at it; and
every successful resolution yields a non-empty text batch (together with
its typed reply-target id). -/
theorem scope_resolution_state_machine (msg : ShortcutMessage)
    (fetchThread : String → Except String (List SlackMsg))
    (history : Except String (List SlackMsg)) :
    (∀ msgs, msg.thread_ts = none → fetchThread msg.ts = Except.ok msgs →
      msgs.length > 1 →
      resolveScopeCore msg fetchThread history =
        Except.ok ⟨Scope.thread msg.ts, textsOf msgs, "*Thread Summary*\n\n", msg.ts⟩)
    ∧ (∀ msgs t, msg.thread_ts = none → fetchThread msg.ts = Except.ok msgs →
        msgs.length ≤ 1 → msg.text = some t → t ≠ "" →
        resolveScope msg fetchThread history =
          Except.ok ⟨Scope.singleMessage msg.ts, [t], "*Message Summary*\n\n", msg.ts⟩)
    ∧ (∀ root r, msg.thread_ts = some root → root ≠ "" →
        resolveScope msg fetchThread history = Except.ok r →
        r.scope = Scope.thread root ∧ r.replyThreadTs = root)
    ∧ (∀ r, resolveScope msg fetchThread history = Except.ok r → r.texts ≠ []) := by
  refine ⟨?_, ?_, ?_, ?_⟩
  · intro msgs hts hf hlen
    simp [resolveScopeCore, noThreadTsBranch, hts, hf, hlen]
  · intro msgs t hts hf hlen htext htne
    have hngt : ¬ msgs.length > 1 := by omega
    simp [resolveScope, resolveScopeCore, noThreadTsBranch, hts, hf, hngt, htext, htne]
  · intro root r hts hroot hok
    obtain ⟨hcore, -⟩ := resolveScope_ok hok
    unfold resolveScopeCore at hcore
    rw [hts] at hcore
    dsimp only at hcore
    rw [if_neg hroot] at hcore
    cases hft : fetchThread root with
    | error e => rw [hft] at hcore; exact absurd hcore (by simp)
    | ok tm =>
      rw [hft] at hcore
      dsimp only at hcore
      by_cases hlen : tm.length > 0
      · rw [if_pos hlen] at hcore
        injection hcore with h'
        rw [← h']
        exact ⟨rfl, rfl⟩
      · rw [if_neg hlen] at hcore
        exact absurd hcore (by simp)
  · intro r hok
    exact (resolveScope_ok hok).2

/-- Witness for C2 at concrete inputs: a three-message thread probe resolves
to the thread rooted at the target; a one-message probe with inline text
"hello" resolves to the single message carrying exactly ["hello"]; an
explicit thread root "200.2" resolves to that thread; and the successful
resolutions have non-empty batches. -/
theorem scope_resolution_state_machine_witness :
    resolveScopeCore ⟨"100.1", some "hello", none⟩
        (fun _ => Except.ok [⟨"1", some "a"⟩, ⟨"2", some "b"⟩, ⟨"3", some "c"⟩])
        (Except.ok []) =
      Except.ok ⟨Scope.thread "100.1",
        textsOf [⟨"1", some "a"⟩, ⟨"2", some "b"⟩, ⟨"3", some "c"⟩],
        "*Thread Summary*\n\n", "100.1"⟩
    ∧ resolveScope ⟨"100.1", some "hello", none⟩
        (fun _ => Except.ok [⟨"1", some "a"⟩]) (Except.ok []) =
      Except.ok ⟨Scope.singleMessage "100.1", ["hello"], "*Message Summary*\n\n", "100.1"⟩
    ∧ (ResolvedScope.scope
          ⟨Scope.thread "200.2", ["x"], "*Thread Summary*\n\n", "200.2"⟩ =
            Scope.thread "200.2"
        ∧ ResolvedScope.replyThreadTs
            ⟨Scope.thread "200.2", ["x"], "*Thread Summary*\n\n", "200.2"⟩ = "200.2")
    ∧ (["hello"] : List String) ≠ [] :=
  ⟨(scope_resolution_state_machine ⟨"100.1", some "hello", none⟩
      (fun _ => Except.ok [⟨"1", some "a"⟩, ⟨"2", some "b"⟩, ⟨"3", some "c"⟩])
      (Except.ok [])).1
      [⟨"1", some "a"⟩, ⟨"2", some "b"⟩, ⟨"3", some "c"⟩] rfl rfl (by decide),
    (scope_resolution_state_machine ⟨"100.1", some "hello", none⟩
      (fun _ => Except.ok [⟨"1", some "a"⟩]) (Except.ok [])).2.1
      [⟨"1", some "a"⟩] "hello" rfl rfl (by decide) rfl (by decide),
    (scope_resolution_state_machine ⟨"100.1", none, some "200.2"⟩
      (fun _ => Except.ok [⟨"1", some "x"⟩]) (Except.ok [])).2.2.1
      "200.2" ⟨Scope.thread "200.2", ["x"], "*Thread Summary*\n\n", "200.2"⟩
      rfl (by decide) rfl,
    (scope_resolution_state_machine ⟨"100.1", some "hello", none⟩
      (fun _ => Except.ok [⟨"1", some "a"⟩]) (Except.ok [])).2.2.2
      ⟨Scope.singleMessage "100.1", ["hello"], "*Message Summary*\n\n", "100.1"⟩ rfl⟩

/-- C6: in both trigger handlers, a non-private delivery (the public channel
post) occurs only in runs where scope resolution, message fetching and
summarization all succeeded and the post itself was accepted; and every
ephemeral notice of a shortcut run goes to the requesting user in the
originating channel. Consequently a run in which any step fails delivers
only requester-only notices, never partial or error output to the
channel. -/
theorem failure_paths_private_success_posts
    (channelId userId : String) (msg : ShortcutMessage)
    (fetchThread : String → Except String (List SlackMsg))
    (history : Except String (List SlackMsg))
    (summarize : List String → Except String SummaryStrings)
    (postOutcome : Except String String)
    (text invokingChannel : String)
    (channelsRes : Except String (List NamedChannel))
    (todayRes : Except String (List SlackMsg))
    (infoRes : Except String (Option String))
    (summarizeCmd : List String → Except String SummaryStrings)
    (postOutcomeCmd : Except String String) :
    (∀ e, e ∈ runShortcut channelId userId msg fetchThread history summarize postOutcome →
      e.isPrivate = false →
      ∃ r s ts, resolveScopeCore msg fetchThread history = Except.ok r ∧ r.texts ≠ []
        ∧ summarize r.texts = Except.ok s ∧ postOutcome = Except.ok ts)
    ∧ (∀ c u t,
        Effect.ephemeral c u t ∈
          runShortcut channelId userId msg fetchThread history summarize postOutcome →
        c = channelId ∧ u = userId)
    ∧ (∀ e,
        e ∈ runCommand text invokingChannel channelsRes todayRes infoRes
              summarizeCmd postOutcomeCmd →
        e.isPrivate = false →
        ∃ target msgs nm s ts,
          (resolveTargetChannel text invokingChannel channelsRes).1 =
              ChannelResolution.resolved target
            ∧ todayRes = Except.ok msgs ∧ msgs ≠ []
            ∧ infoRes = Except.ok nm
            ∧ summarizeCmd (textsOf msgs) = Except.ok s
            ∧ postOutcomeCmd = Except.ok ts) := by
  refine ⟨?_, ?_, ?_⟩
  · intro e he hp
    cases hc : resolveScopeCore msg fetchThread history with
    | error err =>
      simp only [runShortcut, hc, List.mem_cons, List.not_mem_nil, or_false] at he
      rcases he with rfl | rfl <;> simp [Effect.isPrivate] at hp
    | ok r =>
      simp only [runShortcut, hc] at he
      by_cases hemp : r.texts.isEmpty = true
      · rw [if_pos hemp] at he
        simp only [List.mem_cons, List.not_mem_nil, or_false] at he
        rcases he with rfl | rfl <;> simp [Effect.isPrivate] at hp
      · rw [if_neg hemp] at he
        cases hs : summarize r.texts with
        | error err =>
          rw [hs] at he
          simp only [List.mem_cons, List.not_mem_nil, or_false] at he
          rcases he with rfl | rfl <;> simp [Effect.isPrivate] at hp
        | ok s =>
          rw [hs] at he
          cases hpost : postOutcome with
          | error err =>
            rw [hpost] at he
            simp only [List.mem_cons, List.not_mem_nil, or_false] at he
            rcases he with rfl | rfl <;> simp [Effect.isPrivate] at hp
          | ok ts =>
            rw [hpost] at he
            refine ⟨r, s, ts, rfl, ?_, hs, rfl⟩
            simpa [List.isEmpty_iff] using hemp
  · intro c u t he
    cases hc : resolveScopeCore msg fetchThread history with
    | error err =>
      simp only [runShortcut, hc, List.mem_cons, List.not_mem_nil, or_false] at he
      rcases he with he | he <;>
        · injection he with h1 h2 h3
          exact ⟨h1, h2⟩
    | ok r =>
      simp only [runShortcut, hc] at he
      by_cases hemp : r.texts.isEmpty = true
      · rw [if_pos hemp] at he
        simp only [List.mem_cons, List.not_mem_nil, or_false] at he
        rcases he with he | he <;>
          · injection he with h1 h2 h3
            exact ⟨h1, h2⟩
      · rw [if_neg hemp] at he
        cases hs : summarize r.texts with
        | error err =>
          rw [hs] at he
          simp only [List.mem_cons, List.not_mem_nil, or_false] at he
          rcases he with he | he <;>
            · injection he with h1 h2 h3
              exact ⟨h1, h2⟩
        | ok s =>
          rw [hs] at he
          cases hpost : postOutcome with
          | error err =>
            rw [hpost] at he
            simp only [List.mem_cons, List.not_mem_nil, or_false] at he
            rcases he with he | he <;>
              · injection he with h1 h2 h3
                exact ⟨h1, h2⟩
          | ok ts =>
            rw [hpost] at he
            simp only [List.mem_cons, List.not_mem_nil, or_false] at he
            rcases he with he | he | he
            · injection he with h1 h2 h3
              exact ⟨h1, h2⟩
            · exact absurd he (by simp)
            · injection he with h1 h2 h3
              exact ⟨h1, h2⟩
  · intro e he hp
    cases hr : (resolveTargetChannel text invokingChannel channelsRes).1 with
    | failed err =>
      simp only [runCommand, hr, List.mem_cons, List.not_mem_nil, or_false] at he
      rcases he with rfl | rfl <;> simp [Effect.isPrivate] at hp
    | notFound name =>
      simp only [runCommand, hr, List.mem_cons, List.not_mem_nil, or_false] at he
      rcases he with rfl | rfl <;> simp [Effect.isPrivate] at hp
    | resolved target =>
      simp only [runCommand, hr, List.mem_cons] at he
      rcases he with rfl | he
      · simp [Effect.isPrivate] at hp
      · cases ht : todayRes with
        | error err =>
          simp only [runCommandCore, ht, List.mem_cons, List.not_mem_nil, or_false] at he
          rcases he with rfl | rfl <;> simp [Effect.isPrivate] at hp
        | ok msgs =>
          simp only [runCommandCore, ht] at he
          by_cases hm : msgs.isEmpty = true
          · rw [if_pos hm] at he
            simp only [List.mem_cons, List.not_mem_nil, or_false] at he
            rcases he with rfl | rfl <;> simp [Effect.isPrivate] at hp
          · rw [if_neg hm] at he
            cases hi : infoRes with
            | error err =>
              rw [hi] at he
              simp only [List.mem_cons, List.not_mem_nil, or_false] at he
              rcases he with rfl | rfl <;> simp [Effect.isPrivate] at hp
            | ok nm =>
              rw [hi] at he
              cases hs : summarizeCmd (textsOf msgs) with
              | error err =>
                rw [hs] at he
                simp only [List.mem_cons, List.not_mem_nil, or_false] at he
                rcases he with rfl | rfl <;> simp [Effect.isPrivate] at hp
              | ok s =>
                rw [hs] at he
                cases hpost : postOutcomeCmd with
                | error err =>
                  rw [hpost] at he
                  simp only [List.mem_cons, List.not_mem_nil, or_false] at he
                  rcases he with rfl | rfl <;> simp [Effect.isPrivate] at hp
                | ok ts =>
                  rw [hpost] at he
                  refine ⟨target, msgs, nm, s, ts, rfl, rfl, ?_, rfl, hs, rfl⟩
                  simpa [List.isEmpty_iff] using hm

/-- Witness for C6: two concrete fully successful runs, in which the public
post's presence in each trace certifies that every step succeeded. -/
theorem failure_paths_private_success_posts_witness :
    (∃ r s ts,
      resolveScopeCore ⟨"100.1", none, none⟩
          (fun _ => Except.ok [⟨"1", some "a"⟩, ⟨"2", some "b"⟩]) (Except.ok []) =
          Except.ok r
        ∧ r.texts ≠ []
        ∧ (fun _ : List String =>
            (Except.ok ⟨"T", "S", []⟩ : Except String SummaryStrings)) r.texts =
            Except.ok s
        ∧ (Except.ok "1.1" : Except String String) = Except.ok ts)
    ∧ (∃ target msgs nm s ts,
        (resolveTargetChannel "" "C0" (Except.ok [])).1 = ChannelResolution.resolved target
          ∧ (Except.ok [⟨"1", some "hi"⟩] : Except String (List SlackMsg)) = Except.ok msgs
          ∧ msgs ≠ []
          ∧ (Except.ok (some "general") : Except String (Option String)) = Except.ok nm
          ∧ (fun _ : List String =>
              (Except.ok ⟨"T", "S", []⟩ : Except String SummaryStrings)) (textsOf msgs) =
              Except.ok s
          ∧ (Except.ok "1.2" : Except String String) = Except.ok ts) :=
  ⟨(failure_paths_private_success_posts "C1" "U1" ⟨"100.1", none, none⟩
      (fun _ => Except.ok [⟨"1", some "a"⟩, ⟨"2", some "b"⟩]) (Except.ok [])
      (fun _ => Except.ok ⟨"T", "S", []⟩) (Except.ok "1.1")
      "" "C0" (Except.ok []) (Except.ok [⟨"1", some "hi"⟩]) (Except.ok (some "general"))
      (fun _ => Except.ok ⟨"T", "S", []⟩) (Except.ok "1.2")).1
      (Effect.post "C1"
        ("*Thread Summary*\n\n" ++ formatSummaryResponse "T" "S" []) (some "100.1"))
      (by decide) (by decide),
    (failure_paths_private_success_posts "C1" "U1" ⟨"100.1", none, none⟩
      (fun _ => Except.ok [⟨"1", some "a"⟩, ⟨"2", some "b"⟩]) (Except.ok [])
      (fun _ => Except.ok ⟨"T", "S", []⟩) (Except.ok "1.1")
      "" "C0" (Except.ok []) (Except.ok [⟨"1", some "hi"⟩]) (Except.ok (some "general"))
      (fun _ => Except.ok ⟨"T", "S", []⟩) (Except.ok "1.2")).2.2
      (Effect.post "C0"
        (getChannelSummaryHeader "general" ++ formatSummaryResponse "T" "S" []) none)
      (by decide) (by decide)⟩

/-- C8: a request whose body is a `url_verification` carrying a challenge is
answered with exactly that challenge as the whole response body, on every
method and path, and never reaches the Bolt receiver (no signature dispatch
or trigger processing). -/
theorem url_verification_echo (method path : String) (b : InboundBody) (c : String)
    (htype : b.type = some "url_verification") (hch : b.challenge = some c) :
    handleRequest method path (some b) = ⟨HttpResponse.text c, false⟩ := by
  simp [handleRequest, htype, hch]

/-- Witness for C8 at a concrete request. -/
theorem url_verification_echo_witness :
    handleRequest "POST" "/" (some ⟨some "url_verification", some "abc123"⟩) =
      ⟨HttpResponse.text "abc123", false⟩ :=
  url_verification_echo "POST" "/" ⟨some "url_verification", some "abc123"⟩ "abc123" rfl rfl

/-- Appending the numbered item lines step by step from `init` is `init`
followed by the concatenation of those lines. -/
theorem foldl_append_factor (l : List (Nat × String)) :
    ∀ init : String,
      l.foldl (fun acc p => acc ++ toString (p.1 + 1) ++ ". " ++ p.2 ++ "\n") init =
        init ++ concatStrings (l.map (fun p => toString (p.1 + 1) ++ ". " ++ p.2 ++ "\n")) := by
  induction l with
  | nil => intro init; simp [concatStrings]
  | cons a t ih =>
    intro init
    simp only [List.foldl_cons, List.map_cons]
    rw [ih]
    simp [concatStrings, String.append_assoc]

/-- C9: the formatter renders the fixed template — the bold Topic line with
the topic, the summary under the bold Summary label, and, exactly when the
action-item list is non-empty, the bold Action Items label followed by the
1-indexed item lines; on the spec's concrete example the output contains
the four quoted substrings in order, and with no action items the output
contains no Action Items label. -/
theorem formatSummary_template (topic summary : String) (actionItems : List String) :
    formatSummaryResponse topic summary [] =
        "*Topic:* " ++ topic ++ "\n\n*Summary:*\n" ++ summary ++ "\n\n"
    ∧ (actionItems ≠ [] →
        formatSummaryResponse topic summary actionItems =
          "*Topic:* " ++ topic ++ "\n\n*Summary:*\n" ++ summary ++ "\n\n"
            ++ "*Action Items:*\n"
            ++ concatStrings (actionItems.enum.map
                (fun p => toString (p.1 + 1) ++ ". " ++ p.2 ++ "\n")))
    ∧ chainContains (formatSummaryResponse "Launch Plan" "Team decided to ship Friday."
          ["Update changelog", "Notify support"]).toList
        ["Launch Plan", "Team decided to ship Friday.", "1. Update changelog",
          "2. Notify support"] = true
    ∧ strContains (formatSummaryResponse "Launch Plan" "Team decided to ship Friday." [])
        "*Action Items:*" = false := by
  refine ⟨rfl, ?_, by decide, by decide⟩
  intro hne
  have hlen : actionItems.length > 0 := List.length_pos.mpr hne
  unfold formatSummaryResponse
  dsimp only
  rw [if_pos hlen]
  exact foldl_append_factor actionItems.enum _

/-- Witness for C9 on the spec's example inputs. -/
theorem formatSummary_template_witness :
    (["Update changelog", "Notify support"] : List String) ≠ []
    ∧ formatSummaryResponse "Launch Plan" "Team decided to ship Friday."
        ["Update changelog", "Notify support"] =
      "*Topic:* " ++ "Launch Plan" ++ "\n\n*Summary:*\n"
        ++ "Team decided to ship Friday." ++ "\n\n"
        ++ "*Action Items:*\n"
        ++ concatStrings ((["Update changelog", "Notify support"] : List String).enum.map
            (fun p => toString (p.1 + 1) ++ ". " ++ p.2 ++ "\n")) :=
  ⟨by decide, (formatSummary_template "Launch Plan" "Team decided to ship Friday."
      ["Update changelog", "Notify support"]).2.1 (by decide)⟩

/-- C10: a slash-command channel argument that, after trimming and removing
one leading `#`, begins with `C` is used directly as the target channel id:
`listChannels` is never invoked (second component `false`), so name-to-id
resolution cannot happen for it. -/
theorem channelId_used_directly (text invokingChannel : String)
    (channelsRes : Except String (List NamedChannel))
    (h : strStartsWith (formatChannelInput text) "C" = true) :
    resolveTargetChannel text invokingChannel channelsRes =
      (ChannelResolution.resolved (formatChannelInput text), false) := by
  have hne : ¬ formatChannelInput text = "" := by
    intro he
    rw [he] at h
    exact absurd h (by decide)
  unfold resolveTargetChannel
  dsimp only
  rw [if_neg hne, if_pos h]

/-- C7 counterexample: the claim's universally quantified mappings fail on
the code's check order and on the shortcut handler's reduced classifier. An
error message containing "not_in_channel" alongside "quota" maps to the
quota message, which carries no invite guidance; and the shortcut handler
maps "invalid_auth" to the raw-prefixed string, not the credential
message. -/
theorem error_mapping_counterexample :
    strContains
        (formatErrorMessage (some "not_in_channel (quota)") "An error occurred.")
        "/invite" = false
    ∧ shortcutErrorMessage "invalid_auth" = "Error: invalid_auth"
    ∧ ("Error: invalid_auth" : String) ≠
        "Authentication failed. Please check the bot token or reinstall the app." :=
  ⟨by decide, by decide, by decide⟩

/-- C7 as amended: classification is by substring in the source's check
order, first match winning. `formatErrorMessage` (used by the slash-command
dispatcher) maps a message containing "not_in_channel" — and neither
"quota" nor "rate limit" — to the invite guidance; one containing
"not_authed" or "invalid_auth" and none of the earlier substrings to the
credential message; one containing "missing_scope" and none of the earlier
substrings to the reinstall message. The context-menu dispatcher's inline
classifier handles only the quota/rate-limit and "not_in_channel"
substrings. -/
theorem error_mapping_amended (m d : String) :
    (strContains m "quota" = false → strContains m "rate limit" = false →
      strContains m "not_in_channel" = true →
      formatErrorMessage (some m) d =
          "The bot is not in this channel. Please invite the bot to the channel first using `/invite @YourBotName`."
        ∧ strContains (formatErrorMessage (some m) d) "/invite" = true)
    ∧ (strContains m "quota" = false → strContains m "rate limit" = false →
        strContains m "not_in_channel" = false →
        (strContains m "not_authed" = true ∨ strContains m "invalid_auth" = true) →
        formatErrorMessage (some m) d =
          "Authentication failed. Please check the bot token or reinstall the app.")
    ∧ (strContains m "quota" = false → strContains m "rate limit" = false →
        strContains m "not_in_channel" = false → strContains m "not_authed" = false →
        strContains m "invalid_auth" = false → strContains m "missing_scope" = true →
        formatErrorMessage (some m) d =
          "The bot is missing required permissions. Please reinstall the app with all required scopes.")
    ∧ (strContains m "quota" = false → strContains m "rate limit" = false →
        strContains m "not_in_channel" = true →
        shortcutErrorMessage m =
          "The bot is not in this channel. Please invite the bot to the channel first using `/invite @YourBotName`.") := by
  refine ⟨?_, ?_, ?_, ?_⟩
  · intro h1 h2 h3
    have he : formatErrorMessage (some m) d =
        "The bot is not in this channel. Please invite the bot to the channel first using `/invite @YourBotName`." := by
      simp [formatErrorMessage, h1, h2, h3]
    exact ⟨he, by rw [he]; decide⟩
  · intro h1 h2 h3 h4
    rcases h4 with h4 | h4 <;> simp [formatErrorMessage, h1, h2, h3, h4]
  · intro h1 h2 h3 h4 h5 h6
    simp [formatErrorMessage, h1, h2, h3, h4, h5, h6]
  · intro h1 h2 h3
    simp [shortcutErrorMessage, h1, h2, h3]

/-- Witness for the amended C7: the bare message "not_in_channel" maps to
the invite guidance. -/
theorem error_mapping_amended_witness :
    formatErrorMessage (some "not_in_channel") "An error occurred." =
        "The bot is not in this channel. Please invite the bot to the channel first using `/invite @YourBotName`."
      ∧ strContains
          (formatErrorMessage (some "not_in_channel") "An error occurred.")
          "/invite" = true :=
  (error_mapping_amended "not_in_channel" "An error occurred.").1
    (by decide) (by decide) (by decide)

/-- Witness for C10: the argument " #C123 " trims to "C123", which is used
as the channel id directly, without consulting `listChannels`. -/
theorem channelId_used_directly_witness :
    resolveTargetChannel " #C123 " "C999" (Except.ok []) =
      (ChannelResolution.resolved "C123", false) :=
  channelId_used_directly " #C123 " "C999" (Except.ok []) (by decide)

end SlackSummary
